import Mathlib

/-!
Shallow embedding of `src/rainmeter-sys/native/wrapper.h`.

The repository's single source file is a 19-line C preprocessor preamble:

```
  // wrapper.h
  #pragma once
  #define LIBRARY_EXPORTS
  #ifndef UNICODE
    #define UNICODE
  #endif
  #ifndef _UNICODE
    #define _UNICODE
  #endif
  #define WIN32_LEAN_AND_MEAN
  #include <Windows.h>
  #include "sdk/API/RainmeterAPI.h"
```

We embed the preprocessor fragment this file exercises: object-like macro
definitions (with and without an `#ifndef` existence guard), `#pragma once`,
and `#include` of external headers.  A preprocessor state carries the macro
table (an association list, most recent definition first, so the most recent
definition wins on lookup), the set of files already marked by `#pragma once`,
the ordered list of headers whose declarations have entered the translation
unit, the redefinition diagnostics emitted so far (per the C standard an
object-like macro may be redefined without diagnostic only with an identical
body), and the declarations introduced directly by the translation unit
itself (no preprocessor directive creates one, reflecting that `wrapper.h`
contains nothing but preprocessor lines and comments).

The two included headers, `Windows.h` and `sdk/API/RainmeterAPI.h`, are not
part of this repository; where a claim depends on their behaviour the
relevant fragment is modelled from the spec and marked as such.
-/

namespace RainmeterSys

/-- Directives of the preprocessor fragment used by `wrapper.h`: a
`#pragma once` marker, an unguarded object-like `#define`, an
`#ifndef`-guarded block (in this source each guard encloses exactly one
directive), and an `#include` of an external header. -/
inductive Directive where
  | pragmaOnce (file : String)
  | define (name : String) (body : String)
  | ifNotDefined (name : String) (d : Directive)
  | incl (header : String)
  deriving DecidableEq

/-- Preprocessor state of a translation unit. -/
structure PPState where
  /-- Macro table, most recent definition first; lookup takes the most
  recent entry, so the last definition wins. -/
  macros : List (String × String)
  /-- Files already registered by `#pragma once`; a file in this set is
  skipped when included again. -/
  onceSet : List String
  /-- Headers whose declarations have entered the translation unit, in
  inclusion order. -/
  includes : List String
  /-- Names for which a macro-redefinition diagnostic has been emitted
  (redefinition with a non-identical body). -/
  redefErrors : List String
  /-- Declarations introduced directly by the translation unit itself,
  outside of any included header. -/
  decls : List String
  deriving DecidableEq

/-- Lookup in a macro table: the most recent binding of a name. -/
def lookupL (m : List (String × String)) (n : String) : Option String :=
  (m.find? (fun p => p.1 == n)).map Prod.snd

/-- Lookup of a macro's current body in the state. -/
def lookupMacro (s : PPState) (n : String) : Option String :=
  lookupL s.macros n

/-- Whether a macro name is currently defined (what `#ifndef` tests). -/
def isDefined (s : PPState) (n : String) : Bool :=
  (lookupMacro s n).isSome

/-- Effect of an object-like `#define n b`: the new binding is pushed onto
the macro table (so it wins subsequent lookups), and a redefinition
diagnostic is recorded when the name was already defined with a different
body (identical redefinition is permitted without diagnostic). -/
def addDefine (s : PPState) (n b : String) : PPState :=
  { s with
    macros := (n, b) :: s.macros,
    redefErrors :=
      match lookupMacro s n with
      | none => s.redefErrors
      | some prev => if prev = b then s.redefErrors else n :: s.redefErrors }

/-- Effect of `#include` of an external header: its declarations enter the
translation unit. -/
def recordInclude (s : PPState) (h : String) : PPState :=
  { s with includes := s.includes ++ [h] }

/-- Small-step semantics of one directive. -/
def processDirective (s : PPState) : Directive → PPState
  | .pragmaOnce f => { s with onceSet := f :: s.onceSet }
  | .define n b => addDefine s n b
  | .ifNotDefined n d => if isDefined s n then s else processDirective s d
  | .incl h => recordInclude s h

/-- Processing a directive list left to right. -/
def processDirectives (s : PPState) (ds : List Directive) : PPState :=
  ds.foldl processDirective s

/-- Body of `src/rainmeter-sys/native/wrapper.h`, directive by directive
(lines 2, 5, 8-10, 11-13, 16, 18, 19 of the source). -/
def wrapperBody : List Directive :=
  [ .pragmaOnce "wrapper.h",
    .define "LIBRARY_EXPORTS" "",
    .ifNotDefined "UNICODE" (.define "UNICODE" ""),
    .ifNotDefined "_UNICODE" (.define "_UNICODE" ""),
    .define "WIN32_LEAN_AND_MEAN" "",
    .incl "Windows.h",
    .incl "sdk/API/RainmeterAPI.h" ]

/-- Processing the preamble's body (what happens whenever the file's text is
actually expanded into a translation unit). -/
def processPreamble (s : PPState) : PPState :=
  processDirectives s wrapperBody

/-- Including `wrapper.h` into a translation unit: a file already registered
by `#pragma once` is skipped entirely; otherwise its body is processed. -/
def includeWrapper (s : PPState) : PPState :=
  if s.onceSet.contains "wrapper.h" then s else processPreamble s

/-- Prefix of the body strictly before the `#include <Windows.h>` line. -/
def preWindows : List Directive :=
  [ .pragmaOnce "wrapper.h",
    .define "LIBRARY_EXPORTS" "",
    .ifNotDefined "UNICODE" (.define "UNICODE" ""),
    .ifNotDefined "_UNICODE" (.define "_UNICODE" ""),
    .define "WIN32_LEAN_AND_MEAN" "" ]

/-- Prefix of the body strictly before the `#include "sdk/API/RainmeterAPI.h"`
line. -/
def preVendor : List Directive :=
  preWindows ++ [.incl "Windows.h"]

/-- Guarded definition, the combined effect of an
`#ifndef n` / `#define n b` / `#endif` block. -/
def condDefine (n b : String) (s : PPState) : PPState :=
  if isDefined s n then s else addDefine s n b

/-- Linkage annotation carried by the vendor header's declarations. -/
inductive Linkage where
  | exported
  | imported
  deriving DecidableEq

/-- Modelled from the spec: the vendor plugin interface header
`sdk/API/RainmeterAPI.h` is not part of this repository.  Per the spec its
declarations are compiled as export declarations when the export macro
`LIBRARY_EXPORTS` is defined at the point of inclusion, and as import
declarations otherwise. -/
def vendorLinkage (s : PPState) : Linkage :=
  if isDefined s "LIBRARY_EXPORTS" then .exported else .imported

/-- Surface of the platform system header made visible to the translation
unit. -/
inductive HeaderSurface where
  | reduced
  | full
  deriving DecidableEq

/-- Modelled from the spec: the platform system header `Windows.h` is not
part of this repository.  Per the spec it presents a reduced header surface
when the lean-header macro `WIN32_LEAN_AND_MEAN` is defined at the point of
inclusion, and its full surface otherwise. -/
def windowsSurface (s : PPState) : HeaderSurface :=
  if isDefined s "WIN32_LEAN_AND_MEAN" then .reduced else .full

/-- Character width of the platform entry points bound under their
unprefixed names. -/
inductive CharWidth where
  | wide
  | narrow
  deriving DecidableEq

/-- Modelled from the spec: the platform system header `Windows.h` is not
part of this repository.  Per the spec it binds unprefixed platform
entry-point names to their wide-character (W-suffixed) variants when the
character-set macro `UNICODE` is defined at the point of inclusion, and to
the narrow-character variants otherwise. -/
def entryPointBinding (s : PPState) : CharWidth :=
  if isDefined s "UNICODE" then .wide else .narrow

/-! Basic lemmas about the embedding. -/

@[simp]
theorem lookupL_cons (k v : String) (m : List (String × String)) (n : String) :
    lookupL ((k, v) :: m) n = if k == n then some v else lookupL m n := by
  by_cases h : k == n <;> simp [lookupL, List.find?, h]

@[simp]
theorem lookupMacro_addDefine (s : PPState) (n b m : String) :
    lookupMacro (addDefine s n b) m = if n == m then some b else lookupMacro s m := by
  simp [lookupMacro, addDefine]

@[simp]
theorem isDefined_addDefine (s : PPState) (n b m : String) :
    isDefined (addDefine s n b) m = ((n == m) || isDefined s m) := by
  by_cases h : n == m <;> simp [isDefined, h]

@[simp]
theorem onceSet_addDefine (s : PPState) (n b : String) :
    (addDefine s n b).onceSet = s.onceSet := rfl

@[simp]
theorem includes_addDefine (s : PPState) (n b : String) :
    (addDefine s n b).includes = s.includes := rfl

@[simp]
theorem decls_addDefine (s : PPState) (n b : String) :
    (addDefine s n b).decls = s.decls := rfl

theorem macros_addDefine (s : PPState) (n b : String) :
    (addDefine s n b).macros = (n, b) :: s.macros := rfl

theorem redefErrors_addDefine_of_undefined (s : PPState) (n b : String)
    (h : lookupMacro s n = none) :
    (addDefine s n b).redefErrors = s.redefErrors := by
  simp [addDefine, h]

theorem redefErrors_addDefine_of_ne (s : PPState) (n b prev : String)
    (h : lookupMacro s n = some prev) (hne : prev ≠ b) :
    (addDefine s n b).redefErrors = n :: s.redefErrors := by
  simp [addDefine, h, hne]

@[simp]
theorem lookupMacro_recordInclude (s : PPState) (h : String) (m : String) :
    lookupMacro (recordInclude s h) m = lookupMacro s m := rfl

@[simp]
theorem isDefined_recordInclude (s : PPState) (h : String) (m : String) :
    isDefined (recordInclude s h) m = isDefined s m := rfl

@[simp]
theorem onceSet_recordInclude (s : PPState) (h : String) :
    (recordInclude s h).onceSet = s.onceSet := rfl

@[simp]
theorem includes_recordInclude (s : PPState) (h : String) :
    (recordInclude s h).includes = s.includes ++ [h] := rfl

@[simp]
theorem decls_recordInclude (s : PPState) (h : String) :
    (recordInclude s h).decls = s.decls := rfl

@[simp]
theorem redefErrors_recordInclude (s : PPState) (h : String) :
    (recordInclude s h).redefErrors = s.redefErrors := rfl

@[simp]
theorem lookupMacro_condDefine_of_ne (n b : String) (s : PPState) (m : String)
    (h : (n == m) = false) :
    lookupMacro (condDefine n b s) m = lookupMacro s m := by
  unfold condDefine
  split
  · rfl
  · simp [h]

@[simp]
theorem isDefined_condDefine_of_ne (n b : String) (s : PPState) (m : String)
    (h : (n == m) = false) :
    isDefined (condDefine n b s) m = isDefined s m := by
  simp [isDefined, h]

@[simp]
theorem lookupMacro_condDefine_self (n b : String) (s : PPState) :
    lookupMacro (condDefine n b s) n = some ((lookupMacro s n).getD b) := by
  unfold condDefine
  by_cases h : isDefined s n
  · obtain ⟨x, hx⟩ := Option.isSome_iff_exists.mp h
    simp [h, hx]
  · have hx : lookupMacro s n = none := by
      cases hl : lookupMacro s n with
      | none => rfl
      | some x => rw [isDefined, hl] at h; simp at h
    simp [h, hx]

@[simp]
theorem isDefined_condDefine_self (n b : String) (s : PPState) :
    isDefined (condDefine n b s) n = true := by
  simp [isDefined]

@[simp]
theorem onceSet_condDefine (n b : String) (s : PPState) :
    (condDefine n b s).onceSet = s.onceSet := by
  unfold condDefine
  split <;> rfl

@[simp]
theorem includes_condDefine (n b : String) (s : PPState) :
    (condDefine n b s).includes = s.includes := by
  unfold condDefine
  split <;> rfl

@[simp]
theorem decls_condDefine (n b : String) (s : PPState) :
    (condDefine n b s).decls = s.decls := by
  unfold condDefine
  split <;> rfl

theorem condDefine_of_defined (n b : String) (s : PPState)
    (h : isDefined s n = true) :
    condDefine n b s = s := by
  simp [condDefine, h]

@[simp]
theorem lookupMacro_setOnce (s : PPState) (o : List String) (m : String) :
    lookupMacro { s with onceSet := o } m = lookupMacro s m := rfl

@[simp]
theorem isDefined_setOnce (s : PPState) (o : List String) (m : String) :
    isDefined { s with onceSet := o } m = isDefined s m := rfl

/-- Processing the whole preamble body, written as the composition of its
seven directives. -/
theorem processPreamble_eq (s0 : PPState) :
    processPreamble s0 =
      recordInclude
        (recordInclude
          (addDefine
            (condDefine "_UNICODE" ""
              (condDefine "UNICODE" ""
                (addDefine { s0 with onceSet := "wrapper.h" :: s0.onceSet }
                  "LIBRARY_EXPORTS" "")))
            "WIN32_LEAN_AND_MEAN" "")
          "Windows.h")
        "sdk/API/RainmeterAPI.h" := rfl

/-- Processing the prefix of the body before the platform header include. -/
theorem processPreWindows_eq (s0 : PPState) :
    processDirectives s0 preWindows =
      addDefine
        (condDefine "_UNICODE" ""
          (condDefine "UNICODE" ""
            (addDefine { s0 with onceSet := "wrapper.h" :: s0.onceSet }
              "LIBRARY_EXPORTS" "")))
        "WIN32_LEAN_AND_MEAN" "" := rfl

/-- Processing the prefix of the body before the vendor header include. -/
theorem processPreVendor_eq (s0 : PPState) :
    processDirectives s0 preVendor =
      recordInclude
        (addDefine
          (condDefine "_UNICODE" ""
            (condDefine "UNICODE" ""
              (addDefine { s0 with onceSet := "wrapper.h" :: s0.onceSet }
                "LIBRARY_EXPORTS" "")))
          "WIN32_LEAN_AND_MEAN" "")
        "Windows.h" := rfl

theorem onceSet_processPreamble (s0 : PPState) :
    (processPreamble s0).onceSet = "wrapper.h" :: s0.onceSet := by
  rw [processPreamble_eq]
  simp

theorem includes_processPreamble (s0 : PPState) :
    (processPreamble s0).includes =
      s0.includes ++ ["Windows.h", "sdk/API/RainmeterAPI.h"] := by
  rw [processPreamble_eq]
  simp

theorem decls_processPreamble (s0 : PPState) :
    (processPreamble s0).decls = s0.decls := by
  rw [processPreamble_eq]
  simp

theorem lookupMacro_processPreamble_exports (s0 : PPState) :
    lookupMacro (processPreamble s0) "LIBRARY_EXPORTS" = some "" := by
  rw [processPreamble_eq]
  simp

theorem lookupMacro_processPreamble_lean (s0 : PPState) :
    lookupMacro (processPreamble s0) "WIN32_LEAN_AND_MEAN" = some "" := by
  rw [processPreamble_eq]
  simp

theorem lookupMacro_processPreamble_unicode (s0 : PPState) :
    lookupMacro (processPreamble s0) "UNICODE" =
      some ((lookupMacro s0 "UNICODE").getD "") := by
  rw [processPreamble_eq]
  simp

theorem lookupMacro_processPreamble_uunicode (s0 : PPState) :
    lookupMacro (processPreamble s0) "_UNICODE" =
      some ((lookupMacro s0 "_UNICODE").getD "") := by
  rw [processPreamble_eq]
  simp

/-- A second inclusion of the wrapper is a no-op: the first one registers
the file in the pragma-once set. -/
theorem includeWrapper_idem (s0 : PPState) :
    includeWrapper (includeWrapper s0) = includeWrapper s0 := by
  unfold includeWrapper
  by_cases h : s0.onceSet.contains "wrapper.h" = true
  · rw [if_pos h, if_pos h]
  · rw [if_neg h, if_pos (show (processPreamble s0).onceSet.contains "wrapper.h" = true by
      rw [onceSet_processPreamble]; simp)]

/-! Claim theorems. -/

/-- C1: for a translation unit that includes the preamble exactly once
(`wrapper.h` not yet registered by the pragma-once set, so inclusion really
processes the body) and does not itself define the character-set macros or
the export macro beforehand, the export macro `LIBRARY_EXPORTS` is defined
by the time the vendor SDK header `sdk/API/RainmeterAPI.h` is included — the
body is exactly the prefix `preVendor` followed by that include, and after
the prefix `LIBRARY_EXPORTS` is defined — so the vendor header's
declarations receive the export annotation rather than the one marking
them for import. -/
theorem wrapper_c1 (s0 : PPState)
    (honce : s0.onceSet.contains "wrapper.h" = false)
    (hLE : isDefined s0 "LIBRARY_EXPORTS" = false)
    (hU : isDefined s0 "UNICODE" = false)
    (hUU : isDefined s0 "_UNICODE" = false) :
    includeWrapper s0 = processPreamble s0 ∧
    wrapperBody = preVendor ++ [Directive.incl "sdk/API/RainmeterAPI.h"] ∧
    isDefined (processDirectives s0 preVendor) "LIBRARY_EXPORTS" = true ∧
    vendorLinkage (processDirectives s0 preVendor) = Linkage.exported := by
  have hd : isDefined (processDirectives s0 preVendor) "LIBRARY_EXPORTS" = true := by
    rw [processPreVendor_eq]
    simp
  refine ⟨?_, rfl, hd, ?_⟩
  · rw [includeWrapper, if_neg (by rw [honce]; exact Bool.false_ne_true)]
  · simp [vendorLinkage, hd]

/-- Empty translation-unit state: no macros defined, nothing included. -/
def emptyTU : PPState := ⟨[], [], [], [], []⟩

/-- C1 witness: the empty translation unit satisfies the preconditions of
`wrapper_c1`, and the conclusion holds there. -/
theorem wrapper_c1_witness :
    includeWrapper emptyTU = processPreamble emptyTU ∧
    wrapperBody = preVendor ++ [Directive.incl "sdk/API/RainmeterAPI.h"] ∧
    isDefined (processDirectives emptyTU preVendor) "LIBRARY_EXPORTS" = true ∧
    vendorLinkage (processDirectives emptyTU preVendor) = Linkage.exported :=
  wrapper_c1 emptyTU rfl rfl rfl rfl

/-- C2: for every prior preprocessor state, each character-set macro is
defined by the preamble only when not already defined: afterwards its body
is the prior body when one existed and the preamble's empty body otherwise
(so a prior definition is left unchanged), and in either case the macro is
defined afterwards. -/
theorem wrapper_c2 (s0 : PPState) :
    lookupMacro (processPreamble s0) "UNICODE" =
      some ((lookupMacro s0 "UNICODE").getD "") ∧
    lookupMacro (processPreamble s0) "_UNICODE" =
      some ((lookupMacro s0 "_UNICODE").getD "") ∧
    isDefined (processPreamble s0) "UNICODE" = true ∧
    isDefined (processPreamble s0) "_UNICODE" = true :=
  ⟨lookupMacro_processPreamble_unicode s0,
   lookupMacro_processPreamble_uunicode s0,
   by simp [isDefined, lookupMacro_processPreamble_unicode],
   by simp [isDefined, lookupMacro_processPreamble_uunicode]⟩

/-- C3: the export macro `LIBRARY_EXPORTS` is defined by an unguarded
directive (no `#ifndef` over it appears in the body), unlike the guarded
character-set macros, and consequently after processing the preamble it is
defined — with the preamble's empty body — regardless of the prior state. -/
theorem wrapper_c3 :
    Directive.define "LIBRARY_EXPORTS" "" ∈ wrapperBody ∧
    Directive.ifNotDefined "UNICODE" (Directive.define "UNICODE" "") ∈ wrapperBody ∧
    Directive.ifNotDefined "_UNICODE" (Directive.define "_UNICODE" "") ∈ wrapperBody ∧
    (∀ d : Directive, Directive.ifNotDefined "LIBRARY_EXPORTS" d ∉ wrapperBody) ∧
    ∀ s0 : PPState, lookupMacro (processPreamble s0) "LIBRARY_EXPORTS" = some "" := by
  refine ⟨by decide, by decide, by decide, ?_,
    fun s0 => lookupMacro_processPreamble_exports s0⟩
  intro d hd
  simp [wrapperBody] at hd

/-- C4: including the preamble twice produces no macro-redefinition
diagnostic beyond those of the first inclusion. -/
theorem wrapper_c4 (s0 : PPState) :
    (includeWrapper (includeWrapper s0)).redefErrors =
      (includeWrapper s0).redefErrors :=
  congrArg PPState.redefErrors (includeWrapper_idem s0)

/-- C5: when the character-set and unconditional macros are all defined
differently by the including code beforehand, the resulting macro state
follows the last-definition-wins rule (the unguarded macros end with the
preamble's body, the guarded ones keep the prior body), and the only
failure signal is the pair of compile-time redefinition diagnostics for the
two unguarded macros — the translation unit's own declarations are
untouched, so no runtime-visible state arises. -/
theorem wrapper_c5 (s0 : PPState) (bL bW : String)
    (hL : lookupMacro s0 "LIBRARY_EXPORTS" = some bL) (hLne : bL ≠ "")
    (hW : lookupMacro s0 "WIN32_LEAN_AND_MEAN" = some bW) (hWne : bW ≠ "")
    (hU : isDefined s0 "UNICODE" = true) (hUU : isDefined s0 "_UNICODE" = true) :
    lookupMacro (processPreamble s0) "LIBRARY_EXPORTS" = some "" ∧
    lookupMacro (processPreamble s0) "WIN32_LEAN_AND_MEAN" = some "" ∧
    lookupMacro (processPreamble s0) "UNICODE" = lookupMacro s0 "UNICODE" ∧
    lookupMacro (processPreamble s0) "_UNICODE" = lookupMacro s0 "_UNICODE" ∧
    (processPreamble s0).redefErrors =
      "WIN32_LEAN_AND_MEAN" :: "LIBRARY_EXPORTS" :: s0.redefErrors ∧
    (processPreamble s0).decls = s0.decls := by
  have hU2 : (lookupMacro s0 "UNICODE").isSome = true := hU
  have hUU2 : (lookupMacro s0 "_UNICODE").isSome = true := hUU
  obtain ⟨x, hx⟩ := Option.isSome_iff_exists.mp hU2
  obtain ⟨y, hy⟩ := Option.isSome_iff_exists.mp hUU2
  have hZU : isDefined
      (addDefine { s0 with onceSet := "wrapper.h" :: s0.onceSet }
        "LIBRARY_EXPORTS" "") "UNICODE" = true := by
    simp [hU]
  have hZUU : isDefined
      (addDefine { s0 with onceSet := "wrapper.h" :: s0.onceSet }
        "LIBRARY_EXPORTS" "") "_UNICODE" = true := by
    simp [hUU]
  have hlW : lookupMacro
      (addDefine { s0 with onceSet := "wrapper.h" :: s0.onceSet }
        "LIBRARY_EXPORTS" "") "WIN32_LEAN_AND_MEAN" = some bW := by
    simp [hW]
  have hlL : lookupMacro { s0 with onceSet := "wrapper.h" :: s0.onceSet }
      "LIBRARY_EXPORTS" = some bL := by
    simp [hL]
  refine ⟨lookupMacro_processPreamble_exports s0,
    lookupMacro_processPreamble_lean s0, ?_, ?_, ?_, decls_processPreamble s0⟩
  · rw [lookupMacro_processPreamble_unicode, hx]
    rfl
  · rw [lookupMacro_processPreamble_uunicode, hy]
    rfl
  · rw [processPreamble_eq, redefErrors_recordInclude, redefErrors_recordInclude,
      condDefine_of_defined "UNICODE" "" _ hZU,
      condDefine_of_defined "_UNICODE" "" _ hZUU,
      redefErrors_addDefine_of_ne _ _ _ _ hlW hWne,
      redefErrors_addDefine_of_ne _ _ _ _ hlL hLne]

/-- Translation-unit state in which all four macros of the preamble are
already defined, the unconditional ones with a body differing from the
preamble's empty body. -/
def predefTU : PPState :=
  ⟨[("LIBRARY_EXPORTS", "1"), ("WIN32_LEAN_AND_MEAN", "1"),
    ("UNICODE", ""), ("_UNICODE", "x")], [], [], [], []⟩

/-- C5 witness: a state with all four macros previously defined satisfies
the preconditions of `wrapper_c5`, and the conclusion holds there. -/
theorem wrapper_c5_witness :
    lookupMacro (processPreamble predefTU) "LIBRARY_EXPORTS" = some "" ∧
    lookupMacro (processPreamble predefTU) "WIN32_LEAN_AND_MEAN" = some "" ∧
    lookupMacro (processPreamble predefTU) "UNICODE" = lookupMacro predefTU "UNICODE" ∧
    lookupMacro (processPreamble predefTU) "_UNICODE" = lookupMacro predefTU "_UNICODE" ∧
    (processPreamble predefTU).redefErrors =
      "WIN32_LEAN_AND_MEAN" :: "LIBRARY_EXPORTS" :: predefTU.redefErrors ∧
    (processPreamble predefTU).decls = predefTU.decls :=
  wrapper_c5 predefTU "1" "1" (by decide) (by decide) (by decide) (by decide)
    (by decide) (by decide)

/-- C6: the lean-header macro `WIN32_LEAN_AND_MEAN` is defined before the
platform system header `Windows.h` is included — the body is the prefix
`preWindows` followed by the two includes, and after the prefix the macro is
defined for every prior state — so the translation unit receives the
reduced platform header surface. -/
theorem wrapper_c6 :
    wrapperBody =
      preWindows ++ [Directive.incl "Windows.h", Directive.incl "sdk/API/RainmeterAPI.h"] ∧
    ∀ s0 : PPState,
      isDefined (processDirectives s0 preWindows) "WIN32_LEAN_AND_MEAN" = true ∧
      windowsSurface (processDirectives s0 preWindows) = HeaderSurface.reduced := by
  refine ⟨rfl, fun s0 => ?_⟩
  have hd : isDefined (processDirectives s0 preWindows) "WIN32_LEAN_AND_MEAN" = true := by
    rw [processPreWindows_eq]
    simp
  exact ⟨hd, by simp [windowsSurface, hd]⟩

/-- C7: for every prior state, both character-set macros are defined by the
time the platform system header is included, so the unprefixed platform
entry points are bound to their wide-character forms and a platform header
offering only wide-character entry points still compiles. -/
theorem wrapper_c7 :
    wrapperBody =
      preWindows ++ [Directive.incl "Windows.h", Directive.incl "sdk/API/RainmeterAPI.h"] ∧
    ∀ s0 : PPState,
      isDefined (processDirectives s0 preWindows) "UNICODE" = true ∧
      isDefined (processDirectives s0 preWindows) "_UNICODE" = true ∧
      entryPointBinding (processDirectives s0 preWindows) = CharWidth.wide := by
  refine ⟨rfl, fun s0 => ?_⟩
  have hdU : isDefined (processDirectives s0 preWindows) "UNICODE" = true := by
    rw [processPreWindows_eq]
    simp
  have hdUU : isDefined (processDirectives s0 preWindows) "_UNICODE" = true := by
    rw [processPreWindows_eq]
    simp
  exact ⟨hdU, hdUU, by simp [entryPointBinding, hdU]⟩

/-- C8: including the preamble changes nothing beyond preprocessor macro
state and the entry of the two included headers — the translation unit's
own declarations are untouched, and the header list either stays as it was
(second inclusion) or grows by exactly the platform header and the vendor
header. -/
theorem wrapper_c8 (s0 : PPState) :
    (includeWrapper s0).decls = s0.decls ∧
    ((includeWrapper s0).includes = s0.includes ∨
      (includeWrapper s0).includes =
        s0.includes ++ ["Windows.h", "sdk/API/RainmeterAPI.h"]) := by
  unfold includeWrapper
  by_cases h : s0.onceSet.contains "wrapper.h" = true
  · rw [if_pos h]
    exact ⟨rfl, Or.inl rfl⟩
  · rw [if_neg h]
    exact ⟨decls_processPreamble s0, Or.inr (includes_processPreamble s0)⟩

/-- C9: inclusion of the wrapper is idempotent at the whole-file level:
the file's pragma-once registration makes a second inclusion leave the
entire preprocessor state unchanged. -/
theorem wrapper_c9 (s0 : PPState) :
    includeWrapper (includeWrapper s0) = includeWrapper s0 :=
  includeWrapper_idem s0

/-- C10: the lean-header macro `WIN32_LEAN_AND_MEAN` is, like the export
macro and unlike the character-set macros, defined by an unguarded
directive (no `#ifndef` over it appears in the body), and after processing
the preamble it is defined with the preamble's empty body for every prior
state — a differing prior definition is overridden rather than
preserved. -/
theorem wrapper_c10 :
    Directive.define "WIN32_LEAN_AND_MEAN" "" ∈ wrapperBody ∧
    (∀ d : Directive, Directive.ifNotDefined "WIN32_LEAN_AND_MEAN" d ∉ wrapperBody) ∧
    ∀ s0 : PPState,
      isDefined (processPreamble s0) "WIN32_LEAN_AND_MEAN" = true ∧
      lookupMacro (processPreamble s0) "WIN32_LEAN_AND_MEAN" = some "" := by
  refine ⟨by decide, ?_, fun s0 =>
    ⟨by simp [isDefined, lookupMacro_processPreamble_lean],
     lookupMacro_processPreamble_lean s0⟩⟩
  intro d hd
  simp [wrapperBody] at hd

end RainmeterSys
